import Mathlib

/-!
Verification of the kumpee-bangkok-web webboard API against its
natural-language specification.

The repository contains four server variants:
* an ESM `server.js` (namespace `ESM` below),
* a CommonJS `server.js` (namespace `CJS`),
* `src/unnamed/part_000`, a CommonJS server with existence checks
  (namespace `P0`),
* a heredoc server inside `setup-s3-db.sh` (namespace `HD`; its data
  shapes coincide with the CJS ones, so `HD` reuses the `CJS` types).

Each HTTP handler is embedded as a pure function from the persisted
store (the three JSON documents questions.json / answers.json /
users.json, here a record of typed lists) and the request data to a
response together with the updated store.  Time (`Date.now()`,
`new Date().toISOString()`) and random suffixes are passed in as
oracle parameters; the sha256 digest is an abstract function
parameter `hf`, since the claims depend only on equality of digests.
JSON response bodies are modelled by the `FVal`/`JBody` types, with
object fields listed in the order the source constructs them.
-/

namespace Webboard

/-- JSON-ish field values appearing in this API's responses.  `arr`
holds an array of JSON objects (used by the part_000 listing, whose
body wraps the question rows in a named field). -/
inductive FVal where
  | s (v : String)
  | n (v : Nat)
  | b (v : Bool)
  | l (v : List String)
  | o (v : List (String × FVal))
  | arr (v : List (List (String × FVal)))

/-- A JSON object, rendered as an ordered association list. -/
abbrev Row := List (String × FVal)

/-- Response bodies: a JSON object or a JSON array of objects. -/
inductive JBody where
  | obj (fields : Row)
  | arr (items : List Row)

/-- An HTTP response: status code plus JSON body.  `res.json(x)` with no
explicit status is status 200. -/
structure Resp where
  status : Nat
  body : JBody

/-- Property access on a JSON object (first binding wins; the handlers
never create duplicate keys). -/
def getField : Row → String → Option FVal
  | [], _ => none
  | (k, v) :: rest, key => if k = key then some v else getField rest key

/-- The array items of a response whose body is a JSON array. -/
def Resp.rows (r : Resp) : List Row :=
  match r.body with
  | JBody.arr xs => xs
  | JBody.obj _ => []

/-- JavaScript string truthiness: `undefined` and the empty string are
falsy, every other string is truthy. -/
def strTruthy : Option String → Bool
  | none => false
  | some s => s ≠ ""

/-- JavaScript `x || d` on an optional string (used for
`req.header('X-User') || 'anon'` and `body || ''`). -/
def jsOrDefault (o : Option String) (d : String) : String :=
  match o with
  | none => d
  | some s => if s = "" then d else s

/-- JavaScript `String.prototype.trim`: drop leading and trailing
whitespace (computed directly on the character list so that concrete
instances reduce). -/
def jsTrim (s : String) : String :=
  String.mk (((s.data.dropWhile Char.isWhitespace).reverse.dropWhile
    Char.isWhitespace).reverse)

/-- JavaScript `String.prototype.toLowerCase` on the ASCII range
(character-wise lowering). -/
def jsToLower (s : String) : String :=
  String.mk (s.data.map Char.toLower)

/-- Digit characters used by JavaScript `Number.prototype.toString(36)`:
0-9 then lowercase a-z. -/
def digit36 (n : Nat) : Char :=
  if n < 10 then Char.ofNat (48 + n) else Char.ofNat (87 + n)

/-- Fuel-driven base-36 digit accumulation; `fuel = n + 1` always
suffices because the value shrinks by a factor of 36 per step. -/
def toBase36Go : Nat → Nat → List Char → List Char
  | 0, _, acc => acc
  | fuel + 1, n, acc =>
    if n < 36 then digit36 n :: acc
    else toBase36Go fuel (n / 36) (digit36 (n % 36) :: acc)

/-- JavaScript `n.toString(36)` for a non-negative integer. -/
def toBase36 (n : Nat) : String :=
  String.mk (toBase36Go (n + 1) n [])

end Webboard

namespace Webboard.CJS

/-- A question record as pushed by the CJS `POST /questions`. -/
structure Question where
  questionId : String
  title : String
  body : String
  author : String
  createdAt : String
  topics : List String
  locations : List String

/-- An answer record as pushed by the CJS `POST /questions/:qid/answers`
(foreign key field is `questionId`). -/
structure Answer where
  answerId : String
  questionId : String
  body : String
  author : String
  createdAt : String

/-- A user record as pushed by the CJS `/auth/signup`
(`{username, hash, createdAt}`). -/
structure User where
  username : String
  hash : String
  createdAt : String

/-- The persisted documents questions.json, answers.json, users.json. -/
structure Store where
  questions : List Question
  answers : List Answer
  users : List User

/-- One step of the `answers.reduce` in the CJS `GET /questions`:
`m[a.questionId] = (m[a.questionId] || 0) + 1` on a JS object modelled
as an association list with unique keys (new keys are appended). -/
def bump : List (String × Nat) → String → List (String × Nat)
  | [], k => [(k, 1)]
  | (j, c) :: rest, k =>
    if j = k then (j, c + 1) :: rest else (j, c) :: bump rest k

/-- The `countMap` built by `answers.reduce((m,a)=>(m[a.questionId]=(m[a.questionId]||0)+1,m),{})`. -/
def countMap (answers : List Answer) : List (String × Nat) :=
  answers.foldl (fun m a => bump m a.questionId) []

/-- JS property read with default: `m[k] || 0`. -/
def lookupD : List (String × Nat) → String → Nat
  | [], _ => 0
  | (j, c) :: rest, k => if j = k then c else lookupD rest k

/-- The answers whose foreign key is a given question id (specification
side of the count: one filter pass). -/
def answersFor (answers : List Answer) (k : String) : List Answer :=
  answers.filter (fun a => a.questionId = k)

/-- The projection applied per question by the CJS `GET /questions`:
field list exactly as in the source (`author` is not included). -/
def projRow (q : Question) (c : Nat) : Row :=
  [("questionId", FVal.s q.questionId), ("title", FVal.s q.title),
   ("body", FVal.s q.body), ("answersCount", FVal.n c),
   ("createdAt", FVal.s q.createdAt), ("topics", FVal.l q.topics),
   ("locations", FVal.l q.locations)]

/-- CJS `GET /questions`: read both documents, build the count map by a
single reduce over answers, return the questions reversed, each
projected with its count.  No document is written. -/
def getQuestions (st : Store) : Resp × Store :=
  let list := st.questions
  let answers := st.answers
  let m := countMap answers
  let out := list.reverse.map (fun q => projRow q (lookupD m q.questionId))
  ({ status := 200, body := JBody.arr out }, st)

/-- CJS `GET /search`: re-dispatches the request to the `GET /questions`
handler (`app._router.handle` with `url:'/questions'`). -/
def search (st : Store) : Resp × Store :=
  getQuestions st

/-- The CJS id generator `safeId(prefix)`: prefix, a dash, the current
millisecond clock in base 36, and a random base-36 suffix. -/
def safeId (p : String) (t : Nat) (rand : String) : String :=
  p ++ "-" ++ toBase36 t ++ rand

/-- CJS `POST /questions`: author defaults to `anon`; reject a missing
or blank-after-trim title with 400; otherwise append the new record and
write only questions.json. -/
def postQuestion (st : Store) (title body xUser : Option String)
    (t : Nat) (rand nowIso : String) : Resp × Store :=
  let author := jsOrDefault xUser "anon"
  match title with
  | none =>
    ({ status := 400, body := JBody.obj [("error", FVal.s "title required")] }, st)
  | some ttl =>
    if jsTrim ttl = "" then
      ({ status := 400, body := JBody.obj [("error", FVal.s "title required")] }, st)
    else
      let qid := safeId "q" t rand
      let q : Question :=
        { questionId := qid, title := ttl, body := jsOrDefault body "",
          author := author, createdAt := nowIso, topics := [], locations := [] }
      ({ status := 200,
         body := JBody.obj [("status", FVal.s "ok"), ("questionId", FVal.s qid)] },
       { st with questions := st.questions ++ [q] })

/-- CJS `POST /questions/:qid/answers`: author defaults to `anon`; no
question-existence check; reject a falsy qid or body with 400; append
and write only answers.json. -/
def postAnswer (st : Store) (qid : String) (body xUser : Option String)
    (t : Nat) (rand nowIso : String) : Resp × Store :=
  let author := jsOrDefault xUser "anon"
  if qid = "" ∨ strTruthy body = false then
    ({ status := 400, body := JBody.obj [("error", FVal.s "bad input")] }, st)
  else
    let answerId := safeId "a" t rand
    let a : Answer :=
      { answerId := answerId, questionId := qid, body := body.getD "",
        author := author, createdAt := nowIso }
    ({ status := 200, body := JBody.obj [("answerId", FVal.s answerId)] },
     { st with answers := st.answers ++ [a] })

/-- The signup username pattern `/^[a-z0-9._-]{3,20}$/i`. -/
def userRe (s : String) : Bool :=
  3 ≤ s.length && s.length ≤ 20 &&
    s.data.all (fun c =>
      (('a' ≤ c && c ≤ 'z') || ('A' ≤ c && c ≤ 'Z') ||
       ('0' ≤ c && c ≤ '9') || c = '.' || c = '_' || c = '-'))

/-- CJS `/auth/signup`: validate the username pattern and a minimum
password length, reject a case-insensitive duplicate with 409,
otherwise append the user (digest `hf` of the password) and write only
users.json.  (`ensureUsersFile` is the identity here: in the typed
store users.json is always an array.) -/
def signup (hf : String → String) (st : Store)
    (username password : Option String) (nowIso : String) : Resp × Store :=
  let uname := username.getD ""
  if userRe uname = false then
    ({ status := 400, body := JBody.obj [("error", FVal.s "bad username")] }, st)
  else
    match password with
    | none =>
      ({ status := 400, body := JBody.obj [("error", FVal.s "short password")] }, st)
    | some pw =>
      if pw.length < 6 then
        ({ status := 400, body := JBody.obj [("error", FVal.s "short password")] }, st)
      else if (st.users.find? (fun u => jsToLower u.username = jsToLower uname)).isSome then
        ({ status := 409, body := JBody.obj [("error", FVal.s "user exists")] }, st)
      else
        ({ status := 200,
           body := JBody.obj [("status", FVal.s "ok"), ("username", FVal.s uname)] },
         { st with users :=
            st.users ++ [{ username := uname, hash := hf pw, createdAt := nowIso }] })

/-- CJS `/auth/login`: falsy username or password is 400; look the user
up case-insensitively; 404 when absent; 401 when the digest of the
supplied password differs from the stored one; otherwise 200 with the
stored canonical username.  Writes nothing. -/
def login (hf : String → String) (st : Store)
    (username password : Option String) : Resp × Store :=
  if strTruthy username = false ∨ strTruthy password = false then
    ({ status := 400, body := JBody.obj [("error", FVal.s "bad input")] }, st)
  else
    let uname := username.getD ""
    let pw := password.getD ""
    match st.users.find? (fun x => jsToLower x.username = jsToLower uname) with
    | none =>
      ({ status := 404, body := JBody.obj [("error", FVal.s "not found")] }, st)
    | some u =>
      if u.hash ≠ hf pw then
        ({ status := 401, body := JBody.obj [("error", FVal.s "wrong password")] }, st)
      else
        ({ status := 200,
           body := JBody.obj [("status", FVal.s "ok"), ("username", FVal.s u.username)] },
         st)

end Webboard.CJS

namespace Webboard.ESM

/-- A question record as pushed by the ESM `POST /questions`; a missing
request `body` is stored as an absent field. -/
structure Question where
  questionId : String
  title : String
  body : Option String
  createdBy : String
  createdAt : String

/-- An answer record as pushed by the ESM answers route (foreign key
field is `qid`). -/
structure Answer where
  answerId : String
  qid : String
  body : String
  createdBy : String
  createdAt : String

/-- A user record as pushed by the ESM `/signup`
(`{username, passwordHash, createdAt}`). -/
structure User where
  username : String
  passwordHash : String
  createdAt : String

/-- The persisted documents of the ESM variant (each wrapped in a named
array field on disk; the wrapper is immaterial here). -/
structure Store where
  questions : List Question
  answers : List Answer
  users : List User

/-- The JSON rendering of a stored ESM question object (field order of
the object literal in `POST /questions`; an undefined `body` is omitted
by serialization). -/
def rowPlain (q : Question) : Row :=
  [("questionId", FVal.s q.questionId), ("title", FVal.s q.title)]
  ++ (match q.body with
      | some b => [("body", FVal.s b)]
      | none => [])
  ++ [("createdBy", FVal.s q.createdBy), ("createdAt", FVal.s q.createdAt)]

/-- ESM `GET /questions`: spread each stored question and append
`answersCount` computed by filtering answers on the `qid` foreign key.
The list is returned in insertion order (no reverse).  Writes nothing. -/
def getQuestions (st : Store) : Resp × Store :=
  let out := st.questions.map (fun item =>
    rowPlain item ++
      [("answersCount",
        FVal.n (st.answers.filter (fun x => x.qid = item.questionId)).length)])
  ({ status := 200, body := JBody.arr out }, st)

/-- ESM `GET /search`: returns the raw questions collection, with no
`answersCount` annotation and no reordering.  Writes nothing. -/
def search (st : Store) : Resp × Store :=
  ({ status := 200, body := JBody.arr (st.questions.map rowPlain) }, st)

/-- ESM `POST /questions`: requires the `X-User` header (401 when falsy),
rejects only a falsy title (no trim check), appends
`{questionId: "q" + Date.now(), ...}` and writes only questions.json. -/
def postQuestion (st : Store) (xUser title body : Option String)
    (t : Nat) (nowIso : String) : Resp × Store :=
  if strTruthy xUser = false then
    ({ status := 401, body := JBody.obj [("error", FVal.s "not logged in")] }, st)
  else if strTruthy title = false then
    ({ status := 400, body := JBody.obj [("error", FVal.s "title required")] }, st)
  else
    let id := "q" ++ toString t
    let q : Question :=
      { questionId := id, title := title.getD "", body := body,
        createdBy := xUser.getD "", createdAt := nowIso }
    ({ status := 200,
       body := JBody.obj [("ok", FVal.b true), ("questionId", FVal.s id)] },
     { st with questions := st.questions ++ [q] })

/-- ESM `/login`: case-sensitive lookup by exact username; 401 with
"not found" when absent; 401 on digest mismatch; on success
`{ok: true}` with no username echoed.  Writes nothing. -/
def login (hf : String → String) (st : Store)
    (username password : String) : Resp × Store :=
  match st.users.find? (fun x => x.username = username) with
  | none =>
    ({ status := 401, body := JBody.obj [("error", FVal.s "not found")] }, st)
  | some u =>
    if u.passwordHash ≠ hf password then
      ({ status := 401, body := JBody.obj [("error", FVal.s "bad password")] }, st)
    else
      ({ status := 200, body := JBody.obj [("ok", FVal.b true)] }, st)

end Webboard.ESM

namespace Webboard.P0

/-- A question record as pushed by the part_000 `POST /questions`
(title and body stored trimmed). -/
structure Question where
  questionId : String
  title : String
  body : String
  createdBy : String
  createdAt : String

/-- An answer record as pushed by part_000 (foreign key field `qid`,
body stored trimmed). -/
structure Answer where
  answerId : String
  qid : String
  body : String
  createdBy : String
  createdAt : String

/-- A user record as pushed by the part_000 `/auth/signup`. -/
structure User where
  username : String
  passwordHash : String
  createdAt : String

/-- The persisted documents of the part_000 variant. -/
structure Store where
  questions : List Question
  answers : List Answer
  users : List User

/-- The part_000 id generator `newId(prefix)`: prefix, millisecond clock
in base 36, then 12 random hex characters. -/
def newId (p : String) (t : Nat) (rnd : String) : String :=
  p ++ toBase36 t ++ rnd

/-- JSON rendering of a stored part_000 question. -/
def qRow (q : Question) : Row :=
  [("questionId", FVal.s q.questionId), ("title", FVal.s q.title),
   ("body", FVal.s q.body), ("createdBy", FVal.s q.createdBy),
   ("createdAt", FVal.s q.createdAt)]

/-- JSON rendering of a stored part_000 answer. -/
def aRow (a : Answer) : Row :=
  [("answerId", FVal.s a.answerId), ("qid", FVal.s a.qid),
   ("body", FVal.s a.body), ("createdBy", FVal.s a.createdBy),
   ("createdAt", FVal.s a.createdAt)]

/-- part_000 `/auth/signup`: 400 on falsy username or password; the
duplicate check is an exact, case-sensitive comparison (`u.username ===
username`), answered with 409; otherwise append and write only
users.json. -/
def signup (hf : String → String) (st : Store)
    (username password : Option String) (nowIso : String) : Resp × Store :=
  if strTruthy username = false ∨ strTruthy password = false then
    ({ status := 400, body := JBody.obj [("ok", FVal.b false)] }, st)
  else
    let uname := username.getD ""
    let pw := password.getD ""
    if (st.users.find? (fun u => u.username = uname)).isSome then
      ({ status := 409, body := JBody.obj [("ok", FVal.b false)] }, st)
    else
      ({ status := 200,
         body := JBody.obj [("ok", FVal.b true),
                            ("user", FVal.o [("username", FVal.s uname)])] },
       { st with users :=
          st.users ++ [{ username := uname, passwordHash := hf pw, createdAt := nowIso }] })

/-- part_000 `POST /questions`: the `requireUser` middleware answers 401
when the `X-User` header is falsy; then both title and body must be
truthy (400 otherwise); the record stores trimmed title and body;
writes only questions.json. -/
def postQuestion (st : Store) (xUser title body : Option String)
    (t : Nat) (rnd nowIso : String) : Resp × Store :=
  if strTruthy xUser = false then
    ({ status := 401, body := JBody.obj [("ok", FVal.b false)] }, st)
  else if strTruthy title = false ∨ strTruthy body = false then
    ({ status := 400, body := JBody.obj [("ok", FVal.b false)] }, st)
  else
    let q : Question :=
      { questionId := newId "q" t rnd, title := jsTrim (title.getD ""),
        body := jsTrim (body.getD ""), createdBy := xUser.getD "",
        createdAt := nowIso }
    ({ status := 200,
       body := JBody.obj [("ok", FVal.b true), ("question", FVal.o (qRow q))] },
     { st with questions := st.questions ++ [q] })

/-- part_000 `POST /questions/:qid/answers`: 401 without `X-User`; 400 on
falsy body; then the questions document is read and the target id must
exist, otherwise 404 with no write; on success append the answer and
write only answers.json. -/
def postAnswer (st : Store) (xUser : Option String) (qid : String)
    (body : Option String) (t : Nat) (rnd nowIso : String) : Resp × Store :=
  if strTruthy xUser = false then
    ({ status := 401, body := JBody.obj [("ok", FVal.b false)] }, st)
  else if strTruthy body = false then
    ({ status := 400, body := JBody.obj [("ok", FVal.b false)] }, st)
  else if (st.questions.find? (fun q => q.questionId = qid)).isSome = false then
    ({ status := 404, body := JBody.obj [("ok", FVal.b false)] }, st)
  else
    let a : Answer :=
      { answerId := newId "a" t rnd, qid := qid, body := jsTrim (body.getD ""),
        createdBy := xUser.getD "", createdAt := nowIso }
    ({ status := 200,
       body := JBody.obj [("ok", FVal.b true), ("answer", FVal.o (aRow a))] },
     { st with answers := st.answers ++ [a] })

end Webboard.P0

namespace Webboard.HD

/-- Heredoc-variant `POST /questions/:qid/answers` (from setup-s3-db.sh):
data shapes coincide with the CJS variant, so it acts on `CJS.Store`.
400 on falsy qid or body; 404 when no stored question has the target id
(no write); otherwise append `{answerId, questionId: qid, body, author,
createdAt}` and write only answers.json. -/
def postAnswer (st : CJS.Store) (qid : String) (body xUser : Option String)
    (t : Nat) (rand nowIso : String) : Resp × CJS.Store :=
  let author := jsOrDefault xUser "anon"
  if qid = "" ∨ strTruthy body = false then
    ({ status := 400, body := JBody.obj [("error", FVal.s "bad input")] }, st)
  else if (st.questions.any (fun q => q.questionId = qid)) = false then
    ({ status := 404, body := JBody.obj [("error", FVal.s "question not found")] }, st)
  else
    let answerId := CJS.safeId "a" t rand
    let a : CJS.Answer :=
      { answerId := answerId, questionId := qid, body := body.getD "",
        author := author, createdAt := nowIso }
    ({ status := 200, body := JBody.obj [("answerId", FVal.s answerId)] },
     { st with answers := st.answers ++ [a] })

end Webboard.HD

namespace Webboard

/-- JavaScript `Array.prototype.sort` with a comparator: since ES2019
the sort is required to be stable and consistent with the comparator,
so any stable sort is observationally identical.  Modelled as a stable
insertion sort driven by the strict precedes relation
`lt x y` standing for `comparator(x, y) < 0`: a new element is inserted
after all elements it does not strictly precede. -/
def insertAfterEq {α : Type} (lt : α → α → Bool) (x : α) : List α → List α
  | [] => [x]
  | y :: ys => if lt x y then x :: y :: ys else y :: insertAfterEq lt x ys

/-- The stable sort itself: fold the list from the left, inserting each
element into the accumulated sorted prefix. -/
def sortJs {α : Type} (lt : α → α → Bool) (l : List α) : List α :=
  l.foldl (fun acc x => insertAfterEq lt x acc) []

end Webboard

namespace Webboard.ESM

/-- ESM `/signup`: falsy username or password is 400; the duplicate
check is an exact, case-sensitive comparison (`u.username === username`)
answered with 400 (not 409); otherwise append the user (digest of the
password) and write only users.json, answering `{ok: true}`. -/
def signup (hf : String → String) (st : Store)
    (username password : Option String) (nowIso : String) : Resp × Store :=
  if strTruthy username = false ∨ strTruthy password = false then
    ({ status := 400,
       body := JBody.obj [("error", FVal.s "username/password required")] }, st)
  else if (st.users.find? (fun u => u.username = username.getD "")).isSome then
    ({ status := 400, body := JBody.obj [("error", FVal.s "user exists")] }, st)
  else
    ({ status := 200, body := JBody.obj [("ok", FVal.b true)] },
     { st with users := st.users ++
        [{ username := username.getD "", passwordHash := hf (password.getD ""),
           createdAt := nowIso }] })

/-- ESM `POST /questions/:qid/answers`: requires the X-User header (401
when falsy, no write); 400 on falsy body; otherwise append
`{answerId: "a" + Date.now(), qid, body, createdBy, createdAt}` and
write only answers.json. -/
def postAnswer (st : Store) (xUser : Option String) (qid : String)
    (body : Option String) (t : Nat) (nowIso : String) : Resp × Store :=
  if strTruthy xUser = false then
    ({ status := 401, body := JBody.obj [("error", FVal.s "not logged in")] }, st)
  else if strTruthy body = false then
    ({ status := 400, body := JBody.obj [("error", FVal.s "body required")] }, st)
  else
    let id := "a" ++ toString t
    ({ status := 200,
       body := JBody.obj [("ok", FVal.b true), ("answerId", FVal.s id)] },
     { st with answers := st.answers ++
        [{ answerId := id, qid := qid, body := body.getD "",
           createdBy := xUser.getD "", createdAt := nowIso }] })

end Webboard.ESM

namespace Webboard.P0

/-- The count map built by the part_000 listing's loop
`for a of adb.answers: counts.set(a.qid, (counts.get(a.qid)||0)+1)`
(JS Map insertion order, same association-list semantics as `bump`). -/
def countMap (answers : List Answer) : List (String × Nat) :=
  answers.foldl (fun m a => CJS.bump m a.qid) []

/-- The answers whose `qid` foreign key is a given question id. -/
def answersFor (answers : List Answer) (k : String) : List Answer :=
  answers.filter (fun a => a.qid = k)

/-- The strict precedes relation of the part_000 sort comparator
`(a,b) => (b.createdAt||'').localeCompare(a.createdAt||'')`:
a precedes b when the comparator is negative, i.e. when b's createdAt
is smaller.  `localeCompare` on the ASCII ISO-8601 timestamps this
server stores is modelled as lexicographic string comparison (in
particular it returns 0 exactly on equal strings). -/
def ltCreated (a b : Question) : Bool :=
  b.createdAt < a.createdAt

/-- part_000 `GET /questions`: count answers per qid by one loop, sort a
copy of the questions by createdAt descending (stable), annotate each
with `answersCount`, and answer `{ok: true, questions}`.  Writes
nothing. -/
def getQuestions (st : Store) : Resp × Store :=
  let counts := countMap st.answers
  let questions := (sortJs ltCreated st.questions).map
    (fun q => qRow q ++ [("answersCount",
      FVal.n (CJS.lookupD counts q.questionId))])
  ({ status := 200,
     body := JBody.obj [("ok", FVal.b true), ("questions", FVal.arr questions)] },
   st)

/-- part_000 `GET /search`: answers the raw questions collection
(`{ok: true, questions: qdb.questions}`), with no counts and no
reordering.  Writes nothing. -/
def search (st : Store) : Resp × Store :=
  ({ status := 200,
     body := JBody.obj [("ok", FVal.b true),
                        ("questions", FVal.arr (st.questions.map qRow))] },
   st)

/-- part_000 `/auth/login`: 400 on falsy username or password; the
lookup is an exact, case-sensitive comparison; 401 when absent; 401 on
digest mismatch; on success `{ok: true, user: {username}}` (the
supplied username, which equals the stored one by exactness).  Writes
nothing. -/
def login (hf : String → String) (st : Store)
    (username password : Option String) : Resp × Store :=
  if strTruthy username = false ∨ strTruthy password = false then
    ({ status := 400, body := JBody.obj [("ok", FVal.b false)] }, st)
  else
    match st.users.find? (fun u => u.username = username.getD "") with
    | none =>
      ({ status := 401, body := JBody.obj [("ok", FVal.b false)] }, st)
    | some user =>
      if hf (password.getD "") ≠ user.passwordHash then
        ({ status := 401, body := JBody.obj [("ok", FVal.b false)] }, st)
      else
        ({ status := 200,
           body := JBody.obj [("ok", FVal.b true),
             ("user", FVal.o [("username", FVal.s (username.getD ""))])] },
         st)

end Webboard.P0

namespace Webboard.HD

/-- The count map built by the heredoc listing's reduce
`(m,a)=>{ const k=a.questionId; if(k) m[k]=(m[k]||0)+1; return m; }`:
unlike the CJS reduce, an answer whose foreign key is falsy (the empty
string) is skipped. -/
def countMap (answers : List CJS.Answer) : List (String × Nat) :=
  answers.foldl
    (fun m a => if a.questionId = "" then m else CJS.bump m a.questionId) []

/-- Heredoc `GET /questions`: same reversed author-less projection as
the CJS listing, but counts come from the guarded reduce.  Writes
nothing. -/
def getQuestions (st : CJS.Store) : Resp × CJS.Store :=
  let m := countMap st.answers
  let out := st.questions.reverse.map
    (fun q => CJS.projRow q (CJS.lookupD m q.questionId))
  ({ status := 200, body := JBody.arr out }, st)

end Webboard.HD

namespace Webboard.CJS

theorem lookupD_bump (m : List (String × Nat)) (j k : String) :
    lookupD (bump m j) k = lookupD m k + (if j = k then 1 else 0) := by
  induction m with
  | nil =>
    by_cases h : j = k <;> simp [bump, lookupD, h]
  | cons hd tl ih =>
    obtain ⟨a, c⟩ := hd
    by_cases haj : a = j
    · subst haj
      by_cases hak : a = k <;> simp [bump, lookupD, hak]
    · by_cases hak : a = k
      · have hjk : ¬ j = k := fun h => haj (hak.trans h.symm)
        have hkj : ¬ k = j := fun h => hjk h.symm
        simp [bump, lookupD, haj, hak, hjk, hkj]
      · simp [bump, lookupD, haj, hak, ih]

theorem lookupD_foldl_bump (as : List Answer) (m : List (String × Nat))
    (k : String) :
    lookupD (as.foldl (fun m a => bump m a.questionId) m) k
      = lookupD m k + (as.filter (fun a => a.questionId = k)).length := by
  induction as generalizing m with
  | nil => simp
  | cons a tl ih =>
    simp only [List.foldl_cons, List.filter_cons]
    rw [ih, lookupD_bump]
    by_cases h : a.questionId = k
    · simp [h]
      omega
    · simp [h]

/-- The count map built by the reduce agrees with the per-question
filter count. -/
theorem lookupD_countMap (as : List Answer) (k : String) :
    lookupD (countMap as) k = (answersFor as k).length := by
  unfold countMap answersFor
  rw [lookupD_foldl_bump]
  simp [lookupD]

/-- Characterization of the CJS listing: reverse insertion order, each
question annotated with the number of answers whose foreign key matches. -/
theorem getQuestions_rows (st : Store) :
    (getQuestions st).1.rows =
      st.questions.reverse.map
        (fun q => projRow q (answersFor st.answers q.questionId).length) := by
  simp only [getQuestions, Resp.rows]
  have h : (fun q => projRow q (lookupD (countMap st.answers) q.questionId))
      = (fun q => projRow q (answersFor st.answers q.questionId).length) := by
    funext q
    rw [lookupD_countMap]
  rw [h]

theorem answersFor_eq_nil (as : List Answer) (k : String)
    (h : ∀ a ∈ as, a.questionId ≠ k) : answersFor as k = [] := by
  induction as with
  | nil => rfl
  | cons a tl ih =>
    have ha := h a (List.mem_cons_self a tl)
    have htl := ih (fun x hx => h x (List.mem_cons_of_mem a hx))
    simp only [answersFor, List.filter_cons] at htl ⊢
    simp [ha, htl]

end Webboard.CJS

namespace Webboard

theorem P0.foldl_bump_qid (as : List P0.Answer)
    (m : List (String × Nat)) (k : String) :
    CJS.lookupD (as.foldl (fun m a => CJS.bump m a.qid) m) k
      = CJS.lookupD m k + (as.filter (fun a => a.qid = k)).length := by
  induction as generalizing m with
  | nil => simp
  | cons a tl ih =>
    simp only [List.foldl_cons, List.filter_cons]
    rw [ih, CJS.lookupD_bump]
    by_cases h : a.qid = k
    · simp [h]
      omega
    · simp [h]

theorem HD.lookupD_foldl_guard (as : List CJS.Answer)
    (m : List (String × Nat)) (k : String) :
    CJS.lookupD (as.foldl
        (fun m a => if a.questionId = "" then m
                    else CJS.bump m a.questionId) m) k
      = CJS.lookupD m k
        + (as.filter (fun a => a.questionId = k ∧ ¬ a.questionId = "")).length := by
  induction as generalizing m with
  | nil => simp
  | cons a tl ih =>
    simp only [List.foldl_cons, List.filter_cons]
    by_cases ha : a.questionId = ""
    · simp only [ha, if_pos rfl]
      rw [ih]
      simp [ha]
    · simp only [if_neg ha]
      rw [ih, CJS.lookupD_bump]
      by_cases h : a.questionId = k
      · have hk : ¬ k = "" := h ▸ ha
        simp [h, ha, hk]
        omega
      · simp [h]

/-- Characterization of the heredoc listing: reverse insertion order
with the per-question filter count, except that a question whose
questionId is falsy (the empty string) is annotated 0 because the
heredoc reduce skips falsy foreign keys. -/
theorem HD.getQuestions_rows_guard (st : CJS.Store) :
    (HD.getQuestions st).1.rows
      = st.questions.reverse.map
          (fun q => CJS.projRow q
            (if q.questionId = "" then 0
             else (CJS.answersFor st.answers q.questionId).length)) := by
  simp only [HD.getQuestions, Resp.rows]
  have h : ∀ q : CJS.Question,
      CJS.lookupD (HD.countMap st.answers) q.questionId
        = (if q.questionId = "" then 0
           else (CJS.answersFor st.answers q.questionId).length) := by
    intro q
    unfold HD.countMap
    rw [HD.lookupD_foldl_guard]
    by_cases hq : q.questionId = ""
    · rw [if_pos hq, hq]
      have hnil : st.answers.filter
          (fun a => a.questionId = "" ∧ ¬ a.questionId = "") = [] := by
        apply List.filter_eq_nil_iff.mpr
        intro a _
        by_cases h : a.questionId = "" <;> simp [h]
      simp [CJS.lookupD, hnil]
    · rw [if_neg hq]
      have hsame : st.answers.filter
            (fun a => a.questionId = q.questionId ∧ ¬ a.questionId = "")
          = st.answers.filter (fun a => a.questionId = q.questionId) :=
        List.filter_congr (fun a _ => by
          by_cases h : a.questionId = q.questionId <;> simp [h, hq])
      rw [hsame]
      simp [CJS.lookupD, CJS.answersFor]
  have hfun : (fun q => CJS.projRow q
        (CJS.lookupD (HD.countMap st.answers) q.questionId))
      = (fun q => CJS.projRow q
          (if q.questionId = "" then 0
           else (CJS.answersFor st.answers q.questionId).length)) := by
    funext q
    rw [h q]
  rw [hfun]

/-- The part_000 count map agrees with the per-question filter count
over the qid foreign key. -/
theorem P0.countMap_agrees (as : List P0.Answer) (k : String) :
    CJS.lookupD (P0.countMap as) k = (P0.answersFor as k).length := by
  unfold P0.countMap P0.answersFor
  rw [P0.foldl_bump_qid]
  simp [CJS.lookupD]

theorem insertAfterEq_append {α : Type} (lt : α → α → Bool) (x : α)
    (acc : List α) (h : ∀ y ∈ acc, lt x y = false) :
    insertAfterEq lt x acc = acc ++ [x] := by
  induction acc with
  | nil => rfl
  | cons y ys ih =>
    have hy := h y (List.mem_cons_self y ys)
    simp only [insertAfterEq, hy, Bool.false_eq_true, if_false,
      List.cons_append, List.cons.injEq, true_and]
    exact ih (fun z hz => h z (List.mem_cons_of_mem y hz))

theorem insertAfterEq_length {α : Type} (lt : α → α → Bool) (x : α)
    (acc : List α) :
    (insertAfterEq lt x acc).length = acc.length + 1 := by
  induction acc with
  | nil => rfl
  | cons y ys ih =>
    by_cases h : lt x y <;> simp [insertAfterEq, h, ih]

theorem sortJs_length {α : Type} (lt : α → α → Bool) (l : List α) :
    (sortJs lt l).length = l.length := by
  suffices h : ∀ acc : List α,
      (l.foldl (fun acc x => insertAfterEq lt x acc) acc).length
        = acc.length + l.length by
    simpa [sortJs] using h []
  induction l with
  | nil => intro acc; simp
  | cons a tl ih =>
    intro acc
    simp only [List.foldl_cons]
    rw [ih, insertAfterEq_length]
    simp [Nat.add_assoc, Nat.add_comm 1 tl.length]

theorem sortJs_foldl_append {α : Type} (lt : α → α → Bool) (l : List α) :
    ∀ acc : List α, (∀ x ∈ l, ∀ y ∈ l, lt x y = false) →
      (∀ x ∈ l, ∀ y ∈ acc, lt x y = false) →
      l.foldl (fun acc x => insertAfterEq lt x acc) acc = acc ++ l := by
  induction l with
  | nil => intro acc _ _; simp
  | cons a tl ih =>
    intro acc hl hacc
    simp only [List.foldl_cons]
    rw [insertAfterEq_append lt a acc (hacc a (List.mem_cons_self a tl))]
    rw [ih (acc ++ [a])
      (fun x hx y hy => hl x (List.mem_cons_of_mem a hx)
        y (List.mem_cons_of_mem a hy))
      (fun x hx y hy => by
        rcases List.mem_append.mp hy with hy | hy
        · exact hacc x (List.mem_cons_of_mem a hx) y hy
        · rw [List.mem_singleton.mp hy]
          exact hl x (List.mem_cons_of_mem a hx) a (List.mem_cons_self a tl))]
    simp

/-- A stable sort whose comparator never strictly orders any two
elements of the list leaves the list unchanged. -/
theorem sortJs_eq_self {α : Type} (lt : α → α → Bool) (l : List α)
    (h : ∀ x ∈ l, ∀ y ∈ l, lt x y = false) : sortJs lt l = l := by
  unfold sortJs
  rw [sortJs_foldl_append lt l [] h (by simp)]
  simp

end Webboard

namespace Webboard

/-- C1: for every valid request body (title non-blank after trimming),
a successful CJS POST /questions returns a questionId such that a
subsequent GET /questions, with no intervening writes, contains a record
with that questionId, the given title, and answersCount 0.  The
hypothesis hFresh models the generated identifier being unique: no
pre-existing answer references it. -/
theorem claim_C1_create_then_list (st : CJS.Store) (title : String)
    (body xUser : Option String) (t : Nat) (rand now : String)
    (hTitle : jsTrim title ≠ "")
    (hFresh : ∀ a ∈ st.answers, a.questionId ≠ CJS.safeId "q" t rand) :
    (CJS.postQuestion st (some title) body xUser t rand now).1.status = 200 ∧
    (CJS.postQuestion st (some title) body xUser t rand now).1.body
      = JBody.obj [("status", FVal.s "ok"),
                   ("questionId", FVal.s (CJS.safeId "q" t rand))] ∧
    ∃ row ∈ (CJS.getQuestions
        (CJS.postQuestion st (some title) body xUser t rand now).2).1.rows,
      getField row "questionId" = some (FVal.s (CJS.safeId "q" t rand)) ∧
      getField row "title" = some (FVal.s title) ∧
      getField row "answersCount" = some (FVal.n 0) := by
  have hpost : CJS.postQuestion st (some title) body xUser t rand now
      = ({ status := 200,
           body := JBody.obj [("status", FVal.s "ok"),
                              ("questionId", FVal.s (CJS.safeId "q" t rand))] },
         { st with questions := st.questions ++
            [{ questionId := CJS.safeId "q" t rand, title := title,
               body := jsOrDefault body "", author := jsOrDefault xUser "anon",
               createdAt := now, topics := [], locations := [] }] }) := by
    simp [CJS.postQuestion, hTitle]
  refine ⟨by rw [hpost], by rw [hpost], ?_⟩
  rw [hpost, CJS.getQuestions_rows]
  have hAF : CJS.answersFor st.answers (CJS.safeId "q" t rand) = [] :=
    CJS.answersFor_eq_nil _ _ hFresh
  refine ⟨CJS.projRow
      { questionId := CJS.safeId "q" t rand, title := title,
        body := jsOrDefault body "", author := jsOrDefault xUser "anon",
        createdAt := now, topics := [], locations := [] } 0, ?_, ?_⟩
  · simp only [List.reverse_append, List.reverse_cons, List.reverse_nil,
      List.nil_append, List.singleton_append, List.map_cons, List.mem_cons]
    left
    simp [hAF]
  · simp [CJS.projRow, getField]

/-- Witness for C1 at a concrete input: empty store, title Hello. -/
theorem claim_C1_create_then_list_witness :
    (jsTrim "Hello" ≠ "" ∧
      ∀ a ∈ ([] : List CJS.Answer), a.questionId ≠ CJS.safeId "q" 0 "zz") ∧
    ((CJS.postQuestion ⟨[], [], []⟩ (some "Hello") (some "World") (some "alice")
        0 "zz" "T1").1.status = 200 ∧
     (CJS.postQuestion ⟨[], [], []⟩ (some "Hello") (some "World") (some "alice")
        0 "zz" "T1").1.body
       = JBody.obj [("status", FVal.s "ok"),
                    ("questionId", FVal.s (CJS.safeId "q" 0 "zz"))] ∧
     ∃ row ∈ (CJS.getQuestions
         (CJS.postQuestion ⟨[], [], []⟩ (some "Hello") (some "World")
           (some "alice") 0 "zz" "T1").2).1.rows,
       getField row "questionId" = some (FVal.s (CJS.safeId "q" 0 "zz")) ∧
       getField row "title" = some (FVal.s "Hello") ∧
       getField row "answersCount" = some (FVal.n 0)) :=
  ⟨⟨by decide, by simp⟩,
   claim_C1_create_then_list ⟨[], [], []⟩ "Hello" (some "World") (some "alice")
     0 "zz" "T1" (by decide) (by simp)⟩

end Webboard

namespace Webboard

theorem strAppendAssoc (a b c : String) : a ++ b ++ c = a ++ (b ++ c) := by
  apply String.ext
  simp [String.data_append, List.append_assoc]

/-- C2 counterexample: the ESM GET /questions returns the questions in
insertion order, not reverse insertion order: with two stored questions
q1 then q2, the listing's questionId sequence is q1, q2 while reverse
insertion order would be q2, q1.  Likewise the part_000 GET /questions
(which sorts by createdAt descending, stably) lists two questions with
equal createdAt as q1, q2 rather than q2, q1. -/
theorem claim_C2_counterexample :
    (((ESM.getQuestions
        ⟨[⟨"q1", "t1", some "b1", "u1", "c1"⟩,
          ⟨"q2", "t2", some "b2", "u2", "c2"⟩], [], []⟩).1.rows.map
      (fun r => getField r "questionId"))
      = [some (FVal.s "q1"), some (FVal.s "q2")] ∧
     [some (FVal.s "q1"), some (FVal.s "q2")]
      ≠ [some (FVal.s "q2"), some (FVal.s "q1")]) ∧
    ((P0.getQuestions
        ⟨[⟨"q1", "t1", "b1", "u1", "T"⟩,
          ⟨"q2", "t2", "b2", "u2", "T"⟩], [], []⟩).1.body
      = JBody.obj [("ok", FVal.b true), ("questions", FVal.arr
          [P0.qRow ⟨"q1", "t1", "b1", "u1", "T"⟩
             ++ [("answersCount", FVal.n 0)],
           P0.qRow ⟨"q2", "t2", "b2", "u2", "T"⟩
             ++ [("answersCount", FVal.n 0)]])] ∧
     (FVal.arr [P0.qRow ⟨"q1", "t1", "b1", "u1", "T"⟩
                  ++ [("answersCount", FVal.n 0)],
                P0.qRow ⟨"q2", "t2", "b2", "u2", "T"⟩
                  ++ [("answersCount", FVal.n 0)]])
      ≠ (FVal.arr [P0.qRow ⟨"q2", "t2", "b2", "u2", "T"⟩
                     ++ [("answersCount", FVal.n 0)],
                   P0.qRow ⟨"q1", "t1", "b1", "u1", "T"⟩
                     ++ [("answersCount", FVal.n 0)]])) := by
  refine ⟨⟨rfl, by simp⟩, ?_, by simp [P0.qRow]⟩
  simp [P0.getQuestions, sortJs, insertAfterEq, P0.ltCreated, P0.countMap,
    CJS.bump, CJS.lookupD, String.lt_irrefl]

/-- C2 amended: the CJS GET /questions returns all questions in reverse
insertion order, each annotated with answersCount equal to the number
of answers whose foreign key equals its questionId (the single-scan
reduce count agrees with the per-question filter count), writing
nothing; the heredoc listing does the same except that its guarded
reduce skips answers with an empty-string foreign key, so a question
whose questionId is the empty string is annotated 0; the ESM listing
returns insertion order instead; and the part_000 listing sorts by
createdAt descending and stably, so on any state whose questions all
share one createdAt it is in insertion order, each annotated with the
count of answers whose qid matches. -/
theorem claim_C2_listing_amended :
    (∀ st : CJS.Store,
      (CJS.getQuestions st).1.rows
        = st.questions.reverse.map
            (fun q => CJS.projRow q
              (CJS.answersFor st.answers q.questionId).length)
      ∧ (CJS.getQuestions st).2 = st) ∧
    (∀ st : CJS.Store,
      (HD.getQuestions st).1.rows
        = st.questions.reverse.map
            (fun q => CJS.projRow q
              (if q.questionId = "" then 0
               else (CJS.answersFor st.answers q.questionId).length))
      ∧ (HD.getQuestions st).2 = st) ∧
    (∀ (st : P0.Store) (c : String), (∀ q ∈ st.questions, q.createdAt = c) →
      (P0.getQuestions st).1.body
        = JBody.obj [("ok", FVal.b true),
            ("questions", FVal.arr (st.questions.map (fun q =>
              P0.qRow q ++ [("answersCount",
                FVal.n (P0.answersFor st.answers q.questionId).length)])))] ∧
      (P0.getQuestions st).2 = st) := by
  refine ⟨fun st => ⟨CJS.getQuestions_rows st, rfl⟩,
    fun st => ⟨HD.getQuestions_rows_guard st, rfl⟩, ?_⟩
  intro st c hc
  have hsort : sortJs P0.ltCreated st.questions = st.questions := by
    apply sortJs_eq_self
    intro x hx y hy
    simp [P0.ltCreated, hc x hx, hc y hy, String.lt_irrefl]
  refine ⟨?_, rfl⟩
  simp only [P0.getQuestions, hsort]
  have hfun : (fun q : P0.Question => P0.qRow q ++ [("answersCount",
        FVal.n (CJS.lookupD (P0.countMap st.answers) q.questionId))])
      = (fun q : P0.Question => P0.qRow q ++ [("answersCount",
          FVal.n (P0.answersFor st.answers q.questionId).length)]) := by
    funext q
    rw [P0.countMap_agrees]
  rw [hfun]

/-- Witness for C2's part_000 clause at a concrete input: two questions
sharing one createdAt. -/
theorem claim_C2_listing_amended_witness :
    (∀ q ∈ [(⟨"q1", "t1", "b1", "u1", "T"⟩ : P0.Question),
            ⟨"q2", "t2", "b2", "u2", "T"⟩], q.createdAt = "T") ∧
    ((P0.getQuestions ⟨[⟨"q1", "t1", "b1", "u1", "T"⟩,
        ⟨"q2", "t2", "b2", "u2", "T"⟩], [], []⟩).1.body
      = JBody.obj [("ok", FVal.b true),
          ("questions", FVal.arr (([⟨"q1", "t1", "b1", "u1", "T"⟩,
              ⟨"q2", "t2", "b2", "u2", "T"⟩] : List P0.Question).map (fun q =>
            P0.qRow q ++ [("answersCount",
              FVal.n (P0.answersFor ([] : List P0.Answer)
                q.questionId).length)])))] ∧
     (P0.getQuestions ⟨[⟨"q1", "t1", "b1", "u1", "T"⟩,
        ⟨"q2", "t2", "b2", "u2", "T"⟩], [], []⟩).2
       = ⟨[⟨"q1", "t1", "b1", "u1", "T"⟩,
           ⟨"q2", "t2", "b2", "u2", "T"⟩], [], []⟩) :=
  ⟨by simp,
   claim_C2_listing_amended.2.2
     ⟨[⟨"q1", "t1", "b1", "u1", "T"⟩, ⟨"q2", "t2", "b2", "u2", "T"⟩], [], []⟩
     "T" (by simp)⟩

/-- C3 counterexample: in the concrete scenario (POST title Hello, body
World, header X-User alice, then GET /questions) the CJS listing's only
element carries title Hello but no author field at all, whereas the
claim requires the first element to have author alice. -/
theorem claim_C3_counterexample :
    ((CJS.getQuestions (CJS.postQuestion ⟨[], [], []⟩ (some "Hello")
        (some "World") (some "alice") 1000 "ab12" "T1").2).1.rows.map
      (fun r => getField r "author")) = [none] ∧
    ((CJS.getQuestions (CJS.postQuestion ⟨[], [], []⟩ (some "Hello")
        (some "World") (some "alice") 1000 "ab12" "T1").2).1.rows.map
      (fun r => getField r "title")) = [some (FVal.s "Hello")] ∧
    ([none] : List (Option FVal)) ≠ [some (FVal.s "alice")] := by
  refine ⟨rfl, rfl, ?_⟩
  simp

/-- C3 amended: the concrete scenario holds except for the author
annotation: the response is status ok with a questionId beginning q-,
and the subsequent GET /questions has as first element the new record
with title Hello and answersCount 0; the listing projection omits the
author field, although the persisted record's author is alice. -/
theorem claim_C3_concrete_amended (t : Nat) (rand now : String) :
    (CJS.postQuestion ⟨[], [], []⟩ (some "Hello") (some "World") (some "alice")
        t rand now).1.status = 200 ∧
    (CJS.postQuestion ⟨[], [], []⟩ (some "Hello") (some "World") (some "alice")
        t rand now).1.body
      = JBody.obj [("status", FVal.s "ok"),
                   ("questionId", FVal.s (CJS.safeId "q" t rand))] ∧
    (∃ rest, CJS.safeId "q" t rand = "q-" ++ rest) ∧
    (CJS.getQuestions (CJS.postQuestion ⟨[], [], []⟩ (some "Hello")
        (some "World") (some "alice") t rand now).2).1.rows
      = [CJS.projRow
          { questionId := CJS.safeId "q" t rand, title := "Hello",
            body := "World", author := "alice", createdAt := now,
            topics := [], locations := [] } 0] ∧
    getField (CJS.projRow
        { questionId := CJS.safeId "q" t rand, title := "Hello",
          body := "World", author := "alice", createdAt := now,
          topics := [], locations := [] } 0) "title" = some (FVal.s "Hello") ∧
    getField (CJS.projRow
        { questionId := CJS.safeId "q" t rand, title := "Hello",
          body := "World", author := "alice", createdAt := now,
          topics := [], locations := [] } 0) "answersCount" = some (FVal.n 0) ∧
    getField (CJS.projRow
        { questionId := CJS.safeId "q" t rand, title := "Hello",
          body := "World", author := "alice", createdAt := now,
          topics := [], locations := [] } 0) "author" = none ∧
    (CJS.postQuestion ⟨[], [], []⟩ (some "Hello") (some "World") (some "alice")
        t rand now).2.questions.map (fun q => q.author) = ["alice"] := by
  have hT : jsTrim "Hello" = "Hello" := by decide
  have hpost : CJS.postQuestion ⟨[], [], []⟩ (some "Hello") (some "World")
      (some "alice") t rand now
      = ({ status := 200,
           body := JBody.obj [("status", FVal.s "ok"),
                              ("questionId", FVal.s (CJS.safeId "q" t rand))] },
         ⟨[{ questionId := CJS.safeId "q" t rand, title := "Hello",
             body := "World", author := "alice", createdAt := now,
             topics := [], locations := [] }], [], []⟩) := by
    simp [CJS.postQuestion, hT, jsOrDefault]
  refine ⟨by rw [hpost], by rw [hpost], ⟨toBase36 t ++ rand, ?_⟩, ?_, rfl, rfl, rfl, ?_⟩
  · show "q" ++ "-" ++ toBase36 t ++ rand = "q-" ++ (toBase36 t ++ rand)
    apply String.ext
    simp [String.data_append]
  · rw [hpost]
    rfl
  · rw [hpost]
    rfl

end Webboard

namespace Webboard

/-- C4 counterexample: both the ESM and part_000 POST /questions accept
a title that is blank after trimming (a single space): with X-User
supplied they answer 200, not 400, and append a question (part_000
stores the title trimmed to the empty string). -/
theorem claim_C4_counterexample :
    jsTrim " " = "" ∧
    ((ESM.postQuestion ⟨[], [], []⟩ (some "bob") (some " ") (some "b") 5
       "T1").1.status = 200 ∧
     (ESM.postQuestion ⟨[], [], []⟩ (some "bob") (some " ") (some "b") 5
       "T1").2.questions.length = 1) ∧
    ((P0.postQuestion ⟨[], [], []⟩ (some "bob") (some " ") (some "B") 5 "r"
       "T1").1.status = 200 ∧
     (P0.postQuestion ⟨[], [], []⟩ (some "bob") (some " ") (some "B") 5 "r"
       "T1").2.questions.map (fun q => q.title) = [""]) ∧
    (200 ≠ 400) := by
  refine ⟨by decide, ⟨rfl, rfl⟩, ⟨rfl, by rfl⟩, by decide⟩

/-- C4 amended: a missing or blank-after-trim title is rejected with 400
and no write by the CJS (and heredoc) POST /questions; the ESM and
part_000 variants (with X-User supplied) reject only a missing or empty
title with 400 and no write - a title that is merely blank after
trimming, such as a single space, is accepted by both, part_000 then
storing it trimmed to the empty string. -/
theorem claim_C4_reject_blank_title_amended
    (st : CJS.Store) (title body xUser : Option String) (t : Nat)
    (rand now : String)
    (st2 : ESM.Store) (xu2 title2 body2 : Option String) (t2 : Nat)
    (now2 : String)
    (st3 : P0.Store) (xu3 title3 body3 : Option String) (t3 : Nat)
    (rnd3 now3 : String)
    (hBlank : title = none ∨ ∃ s, title = some s ∧ jsTrim s = "")
    (hXu2 : strTruthy xu2 = true)
    (hT2 : strTruthy title2 = false)
    (hXu3 : strTruthy xu3 = true)
    (hT3 : strTruthy title3 = false) :
    ((CJS.postQuestion st title body xUser t rand now).1.status = 400 ∧
     (CJS.postQuestion st title body xUser t rand now).2 = st) ∧
    ((ESM.postQuestion st2 xu2 title2 body2 t2 now2).1.status = 400 ∧
     (ESM.postQuestion st2 xu2 title2 body2 t2 now2).2 = st2) ∧
    ((P0.postQuestion st3 xu3 title3 body3 t3 rnd3 now3).1.status = 400 ∧
     (P0.postQuestion st3 xu3 title3 body3 t3 rnd3 now3).2 = st3) := by
  refine ⟨?_, ?_, ?_⟩
  · rcases hBlank with h | ⟨s, hs, htrim⟩
    · subst h
      exact ⟨rfl, rfl⟩
    · subst hs
      simp [CJS.postQuestion, htrim]
  · simp [ESM.postQuestion, hXu2, hT2]
  · simp [P0.postQuestion, hXu3, hT3]

/-- Witness for C4 at concrete inputs: missing title for CJS, empty
title for ESM and part_000. -/
theorem claim_C4_reject_blank_title_amended_witness :
    (((none : Option String) = none ∨
       ∃ s, (none : Option String) = some s ∧ jsTrim s = "") ∧
     strTruthy (some "bob") = true ∧
     strTruthy (some "") = false) ∧
    (((CJS.postQuestion ⟨[], [], []⟩ none (some "B") (some "alice") 3 "r"
        "T1").1.status = 400 ∧
      (CJS.postQuestion ⟨[], [], []⟩ none (some "B") (some "alice") 3 "r"
        "T1").2 = ⟨[], [], []⟩) ∧
     ((ESM.postQuestion ⟨[], [], []⟩ (some "bob") (some "") (some "b") 5
        "T1").1.status = 400 ∧
      (ESM.postQuestion ⟨[], [], []⟩ (some "bob") (some "") (some "b") 5
        "T1").2 = ⟨[], [], []⟩) ∧
     ((P0.postQuestion ⟨[], [], []⟩ (some "bob") (some "") (some "b") 5 "r"
        "T1").1.status = 400 ∧
      (P0.postQuestion ⟨[], [], []⟩ (some "bob") (some "") (some "b") 5 "r"
        "T1").2 = ⟨[], [], []⟩)) :=
  ⟨⟨Or.inl rfl, by decide, by decide⟩,
   claim_C4_reject_blank_title_amended ⟨[], [], []⟩ none (some "B")
     (some "alice") 3 "r" "T1" ⟨[], [], []⟩ (some "bob") (some "")
     (some "b") 5 "T1" ⟨[], [], []⟩ (some "bob") (some "") (some "b") 5 "r"
     "T1" (Or.inl rfl) (by decide) (by decide) (by decide) (by decide)⟩

/-- C5: in the variants that check question existence (part_000 and the
heredoc server), posting an answer to a question id not present in the
questions collection yields 404 and leaves the answers document
unchanged. -/
theorem claim_C5_answer_missing_question
    (stP : P0.Store) (u b qid : String) (tP : Nat) (rndP nowP : String)
    (stH : CJS.Store) (qidH bH : String) (xuH : Option String) (tH : Nat)
    (randH nowH : String)
    (hu : u ≠ "") (hb : b ≠ "")
    (hq : ∀ q ∈ stP.questions, q.questionId ≠ qid)
    (hqH : qidH ≠ "") (hbH : bH ≠ "")
    (hexH : ∀ q ∈ stH.questions, q.questionId ≠ qidH) :
    ((P0.postAnswer stP (some u) qid (some b) tP rndP nowP).1.status = 404 ∧
     (P0.postAnswer stP (some u) qid (some b) tP rndP nowP).2 = stP) ∧
    ((HD.postAnswer stH qidH (some bH) xuH tH randH nowH).1.status = 404 ∧
     (HD.postAnswer stH qidH (some bH) xuH tH randH nowH).2 = stH) := by
  constructor
  · have hfind : stP.questions.find? (fun q => q.questionId = qid) = none := by
      rw [List.find?_eq_none]
      intro x hx
      simp [hq x hx]
    simp [P0.postAnswer, strTruthy, hu, hb, hfind]
  · have hany : stH.questions.any (fun q => q.questionId = qidH) = false := by
      rw [List.any_eq_false]
      intro x hx
      simp [hexH x hx]
    simp [HD.postAnswer, strTruthy, hqH, hbH, hany]

/-- Witness for C5 at concrete inputs: empty stores, so the target
question id is certainly absent. -/
theorem claim_C5_answer_missing_question_witness :
    (("u1" : String) ≠ "" ∧ ("b1" : String) ≠ "" ∧
     (∀ q ∈ ([] : List P0.Question), q.questionId ≠ "qX") ∧
     ("qY" : String) ≠ "" ∧ ("b2" : String) ≠ "" ∧
     (∀ q ∈ ([] : List CJS.Question), q.questionId ≠ "qY")) ∧
    (((P0.postAnswer ⟨[], [], []⟩ (some "u1") "qX" (some "b1") 1 "r" "T1").1.status
        = 404 ∧
      (P0.postAnswer ⟨[], [], []⟩ (some "u1") "qX" (some "b1") 1 "r" "T1").2
        = ⟨[], [], []⟩) ∧
     ((HD.postAnswer ⟨[], [], []⟩ "qY" (some "b2") none 2 "r" "T2").1.status
        = 404 ∧
      (HD.postAnswer ⟨[], [], []⟩ "qY" (some "b2") none 2 "r" "T2").2
        = ⟨[], [], []⟩)) :=
  ⟨⟨by decide, by decide, by simp, by decide, by decide, by simp⟩,
   claim_C5_answer_missing_question ⟨[], [], []⟩ "u1" "b1" "qX" 1 "r" "T1"
     ⟨[], [], []⟩ "qY" "b2" none 2 "r" "T2"
     (by decide) (by decide) (by simp) (by decide) (by decide) (by simp)⟩

end Webboard

namespace Webboard

/-- C6 counterexample: two concrete failures of the original claim.
The part_000 signup compares usernames case-sensitively, so the request
Alice against a stored alice - a duplicate under case-insensitive
comparison - is accepted with 200 and appended, where the claim
requires 409 and an unmodified collection.  And the CJS signup answers
an exact duplicate whose password is shorter than 6 characters with
400 (its validation runs before the duplicate check), not 409. -/
theorem claim_C6_counterexample :
    jsToLower "Alice" = jsToLower "alice" ∧
    ((P0.signup (fun s => s) ⟨[], [], [⟨"alice", "h1", "c1"⟩]⟩ (some "Alice")
       (some "secret") "T1").1.status = 200 ∧
     (P0.signup (fun s => s) ⟨[], [], [⟨"alice", "h1", "c1"⟩]⟩ (some "Alice")
       (some "secret") "T1").2.users.length = 2 ∧
     (200 ≠ 409)) ∧
    ((CJS.signup (fun s => s) ⟨[], [], [⟨"alice", "h1", "c1"⟩]⟩ (some "alice")
       (some "pw") "T2").1.status = 400 ∧
     (400 ≠ 409)) := by
  refine ⟨by decide, ⟨rfl, rfl, by decide⟩, ⟨rfl, by decide⟩⟩

/-- C6 amended: in the CJS variant, signup with a username equal to a
stored one under case-insensitive comparison and passing its
username-pattern and minimum-password-length validations (which run
first; a duplicate failing them is answered 400) yields 409 and leaves
the users document unchanged; the part_000 and ESM variants compare
usernames case-sensitively: an exact duplicate yields 409 in part_000
and 400 in ESM, each with no modification, while part_000 accepts and
appends any username with no exact match - in particular one differing
from a stored username only in case. -/
theorem claim_C6_signup_duplicate_amended
    (hf : String → String) (st : CJS.Store) (uname pw now : String)
    (stP : P0.Store) (unameP pwP nowP : String)
    (stP2 : P0.Store) (unameP2 pwP2 nowP2 : String)
    (stE : ESM.Store) (unameE pwE nowE : String)
    (hre : CJS.userRe uname = true) (hpw : 6 ≤ pw.length)
    (hdup : ∃ u ∈ st.users, jsToLower u.username = jsToLower uname)
    (huP : unameP ≠ "") (hpP : pwP ≠ "")
    (hdupP : ∃ u ∈ stP.users, u.username = unameP)
    (huP2 : unameP2 ≠ "") (hpP2 : pwP2 ≠ "")
    (hnoexact : ∀ x ∈ stP2.users, x.username ≠ unameP2)
    (huE : unameE ≠ "") (hpE : pwE ≠ "")
    (hdupE : ∃ u ∈ stE.users, u.username = unameE) :
    ((CJS.signup hf st (some uname) (some pw) now).1.status = 409 ∧
     (CJS.signup hf st (some uname) (some pw) now).2 = st) ∧
    ((P0.signup hf stP (some unameP) (some pwP) nowP).1.status = 409 ∧
     (P0.signup hf stP (some unameP) (some pwP) nowP).2 = stP) ∧
    ((P0.signup hf stP2 (some unameP2) (some pwP2) nowP2).1.status = 200 ∧
     (P0.signup hf stP2 (some unameP2) (some pwP2) nowP2).2.users
       = stP2.users ++ [{ username := unameP2, passwordHash := hf pwP2,
                          createdAt := nowP2 }]) ∧
    ((ESM.signup hf stE (some unameE) (some pwE) nowE).1.status = 400 ∧
     (ESM.signup hf stE (some unameE) (some pwE) nowE).2 = stE) := by
  refine ⟨?_, ?_, ?_, ?_⟩
  · have h6 : ¬ pw.length < 6 := by omega
    have hfind : (st.users.find?
        (fun u => jsToLower u.username = jsToLower uname)).isSome = true := by
      rw [List.find?_isSome]
      obtain ⟨u, hu, he⟩ := hdup
      exact ⟨u, hu, by simp [he]⟩
    simp [CJS.signup, hre, h6, hfind]
  · have hfindP : (stP.users.find? (fun u => u.username = unameP)).isSome
        = true := by
      rw [List.find?_isSome]
      obtain ⟨u, hu, he⟩ := hdupP
      exact ⟨u, hu, by simp [he]⟩
    simp [P0.signup, strTruthy, huP, hpP, hfindP]
  · have hfind2 : stP2.users.find? (fun u => u.username = unameP2) = none := by
      rw [List.find?_eq_none]
      intro x hx
      simp [hnoexact x hx]
    simp [P0.signup, strTruthy, huP2, hpP2, hfind2]
  · have hfindE : (stE.users.find? (fun u => u.username = unameE)).isSome
        = true := by
      rw [List.find?_isSome]
      obtain ⟨u, hu, he⟩ := hdupE
      exact ⟨u, hu, by simp [he]⟩
    simp [ESM.signup, strTruthy, huE, hpE, hfindE]

/-- Witness for C6 at concrete inputs: a case-variant duplicate for the
CJS branch, an exact duplicate for the part_000 409 and ESM 400
branches, and a case-variant-only duplicate for the part_000 accept
branch. -/
theorem claim_C6_signup_duplicate_amended_witness :
    (CJS.userRe "Alice" = true ∧ 6 ≤ ("secret" : String).length ∧
     (∃ u ∈ [(⟨"alice", "h1", "c1"⟩ : CJS.User)],
        jsToLower u.username = jsToLower "Alice") ∧
     ("bob" : String) ≠ "" ∧ ("hunter2" : String) ≠ "" ∧
     (∃ u ∈ [(⟨"bob", "h2", "c2"⟩ : P0.User)], u.username = "bob") ∧
     ("Carol" : String) ≠ "" ∧ ("pw9" : String) ≠ "" ∧
     (∀ x ∈ [(⟨"carol", "h3", "c3"⟩ : P0.User)], x.username ≠ "Carol") ∧
     ("dave" : String) ≠ "" ∧ ("pw10" : String) ≠ "" ∧
     (∃ u ∈ [(⟨"dave", "h4", "c4"⟩ : ESM.User)], u.username = "dave")) ∧
    (((CJS.signup (fun s => s) ⟨[], [], [⟨"alice", "h1", "c1"⟩]⟩ (some "Alice")
        (some "secret") "T1").1.status = 409 ∧
      (CJS.signup (fun s => s) ⟨[], [], [⟨"alice", "h1", "c1"⟩]⟩ (some "Alice")
        (some "secret") "T1").2 = ⟨[], [], [⟨"alice", "h1", "c1"⟩]⟩) ∧
     ((P0.signup (fun s => s) ⟨[], [], [⟨"bob", "h2", "c2"⟩]⟩ (some "bob")
        (some "hunter2") "T2").1.status = 409 ∧
      (P0.signup (fun s => s) ⟨[], [], [⟨"bob", "h2", "c2"⟩]⟩ (some "bob")
        (some "hunter2") "T2").2 = ⟨[], [], [⟨"bob", "h2", "c2"⟩]⟩) ∧
     ((P0.signup (fun s => s) ⟨[], [], [⟨"carol", "h3", "c3"⟩]⟩ (some "Carol")
        (some "pw9") "T3").1.status = 200 ∧
      (P0.signup (fun s => s) ⟨[], [], [⟨"carol", "h3", "c3"⟩]⟩ (some "Carol")
        (some "pw9") "T3").2.users
        = [(⟨"carol", "h3", "c3"⟩ : P0.User)]
          ++ [{ username := "Carol", passwordHash := (fun s : String => s) "pw9",
                createdAt := "T3" }]) ∧
     ((ESM.signup (fun s => s) ⟨[], [], [⟨"dave", "h4", "c4"⟩]⟩ (some "dave")
        (some "pw10") "T4").1.status = 400 ∧
      (ESM.signup (fun s => s) ⟨[], [], [⟨"dave", "h4", "c4"⟩]⟩ (some "dave")
        (some "pw10") "T4").2 = ⟨[], [], [⟨"dave", "h4", "c4"⟩]⟩)) :=
  ⟨⟨by decide, by decide,
    ⟨⟨"alice", "h1", "c1"⟩, by simp, by decide⟩,
    by decide, by decide, ⟨⟨"bob", "h2", "c2"⟩, by simp, rfl⟩,
    by decide, by decide, by simp, by decide, by decide,
    ⟨⟨"dave", "h4", "c4"⟩, by simp, rfl⟩⟩,
   claim_C6_signup_duplicate_amended (fun s => s)
     ⟨[], [], [⟨"alice", "h1", "c1"⟩]⟩ "Alice" "secret" "T1"
     ⟨[], [], [⟨"bob", "h2", "c2"⟩]⟩ "bob" "hunter2" "T2"
     ⟨[], [], [⟨"carol", "h3", "c3"⟩]⟩ "Carol" "pw9" "T3"
     ⟨[], [], [⟨"dave", "h4", "c4"⟩]⟩ "dave" "pw10" "T4"
     (by decide) (by decide)
     ⟨⟨"alice", "h1", "c1"⟩, by simp, by decide⟩
     (by decide) (by decide)
     ⟨⟨"bob", "h2", "c2"⟩, by simp, rfl⟩
     (by decide) (by decide) (by simp)
     (by decide) (by decide)
     ⟨⟨"dave", "h4", "c4"⟩, by simp, rfl⟩⟩

/-- C7 counterexample: the ESM login looks the username up
case-sensitively: for a stored user alice with the matching password
digest, logging in as ALICE with the correct password yields 401, where
the claim (case-insensitive lookup, then digest match) requires
success. -/
theorem claim_C7_counterexample :
    jsToLower "ALICE" = jsToLower "alice" ∧
    (fun s => s ++ "x") "pw" = "pwx" ∧
    (ESM.login (fun s => s ++ "x") ⟨[], [], [⟨"alice", "pwx", "c1"⟩]⟩
      "ALICE" "pw").1.status = 401 ∧
    (401 ≠ 200) := by
  refine ⟨by decide, rfl, rfl, by decide⟩

/-- C7 amended: the CJS login behaves exactly as the claim states
(case-insensitive lookup; 404 when no user matches; 401 on digest
mismatch; 200 with the stored canonical username on match; no write);
the ESM and part_000 logins instead look the username up
case-sensitively, by exact equality, and answer 401, not 404, when no
exact match exists; the ESM success response is just ok-true, omitting
the username. -/
theorem claim_C7_login_amended
    (hf : String → String) (st : CJS.Store) (uname pw : String)
    (stE : ESM.Store) (unameE pwE : String)
    (stP : P0.Store) (unameP pwP : String)
    (hu : uname ≠ "") (hp : pw ≠ "")
    (huP : unameP ≠ "") (hpP : pwP ≠ "") :
    (st.users.find? (fun x => jsToLower x.username = jsToLower uname) = none →
      (CJS.login hf st (some uname) (some pw)).1.status = 404) ∧
    (∀ u, st.users.find? (fun x => jsToLower x.username = jsToLower uname)
        = some u → hf pw ≠ u.hash →
      (CJS.login hf st (some uname) (some pw)).1.status = 401) ∧
    (∀ u, st.users.find? (fun x => jsToLower x.username = jsToLower uname)
        = some u → hf pw = u.hash →
      (CJS.login hf st (some uname) (some pw)).1.status = 200 ∧
      (CJS.login hf st (some uname) (some pw)).1.body
        = JBody.obj [("status", FVal.s "ok"),
                     ("username", FVal.s u.username)]) ∧
    (CJS.login hf st (some uname) (some pw)).2 = st ∧
    ((∀ x ∈ stE.users, x.username ≠ unameE) →
      (ESM.login hf stE unameE pwE).1.status = 401 ∧
      (ESM.login hf stE unameE pwE).2 = stE) ∧
    (∀ x, stE.users.find? (fun y => y.username = unameE) = some x →
      x.passwordHash = hf pwE →
      (ESM.login hf stE unameE pwE).1.status = 200 ∧
      (ESM.login hf stE unameE pwE).1.body
        = JBody.obj [("ok", FVal.b true)]) ∧
    ((∀ x ∈ stP.users, x.username ≠ unameP) →
      (P0.login hf stP (some unameP) (some pwP)).1.status = 401 ∧
      (P0.login hf stP (some unameP) (some pwP)).2 = stP) := by
  refine ⟨?_, ?_, ?_, ?_, ?_, ?_, ?_⟩
  · intro hfind
    simp [CJS.login, strTruthy, hu, hp, hfind]
  · intro u hfind hne
    have : u.hash ≠ hf pw := fun h => hne h.symm
    simp [CJS.login, strTruthy, hu, hp, hfind, this]
  · intro u hfind heq
    simp [CJS.login, strTruthy, hu, hp, hfind, heq.symm]
  · unfold CJS.login
    split
    · rfl
    · dsimp only
      split
      · rfl
      · split <;> rfl
  · intro hnone
    have hfind : stE.users.find? (fun y => y.username = unameE) = none := by
      rw [List.find?_eq_none]
      intro x hx
      simp [hnone x hx]
    simp [ESM.login, hfind]
  · intro x hfind hmatch
    simp [ESM.login, hfind, hmatch]
  · intro hnone
    have hfind : stP.users.find? (fun y => y.username = unameP) = none := by
      rw [List.find?_eq_none]
      intro x hx
      simp [hnone x hx]
    simp [P0.login, strTruthy, huP, hpP, hfind]

/-- Witness for C7 at concrete inputs: stored canonical username Bob,
login as bob with the correct password succeeds and echoes Bob for the
CJS branches; empty user collections exercise the ESM and part_000
unknown-user branches. -/
theorem claim_C7_login_amended_witness :
    (("bob" : String) ≠ "" ∧ ("pw" : String) ≠ "" ∧
     ("eve" : String) ≠ "" ∧ ("pw2" : String) ≠ "") ∧
    (([(⟨"Bob", "pwx", "c1"⟩ : CJS.User)].find?
        (fun x => jsToLower x.username = jsToLower "bob") = none →
      (CJS.login (fun s => s ++ "x") ⟨[], [], [⟨"Bob", "pwx", "c1"⟩]⟩
        (some "bob") (some "pw")).1.status = 404) ∧
     (∀ u, [(⟨"Bob", "pwx", "c1"⟩ : CJS.User)].find?
        (fun x => jsToLower x.username = jsToLower "bob") = some u →
       (fun s => s ++ "x") "pw" ≠ u.hash →
       (CJS.login (fun s => s ++ "x") ⟨[], [], [⟨"Bob", "pwx", "c1"⟩]⟩
         (some "bob") (some "pw")).1.status = 401) ∧
     (∀ u, [(⟨"Bob", "pwx", "c1"⟩ : CJS.User)].find?
        (fun x => jsToLower x.username = jsToLower "bob") = some u →
       (fun s => s ++ "x") "pw" = u.hash →
       (CJS.login (fun s => s ++ "x") ⟨[], [], [⟨"Bob", "pwx", "c1"⟩]⟩
         (some "bob") (some "pw")).1.status = 200 ∧
       (CJS.login (fun s => s ++ "x") ⟨[], [], [⟨"Bob", "pwx", "c1"⟩]⟩
         (some "bob") (some "pw")).1.body
         = JBody.obj [("status", FVal.s "ok"),
                      ("username", FVal.s u.username)]) ∧
     (CJS.login (fun s => s ++ "x") ⟨[], [], [⟨"Bob", "pwx", "c1"⟩]⟩
       (some "bob") (some "pw")).2 = ⟨[], [], [⟨"Bob", "pwx", "c1"⟩]⟩ ∧
     ((∀ x ∈ ([] : List ESM.User), x.username ≠ "eve") →
       (ESM.login (fun s => s ++ "x") ⟨[], [], []⟩ "eve" "pw2").1.status
         = 401 ∧
       (ESM.login (fun s => s ++ "x") ⟨[], [], []⟩ "eve" "pw2").2
         = ⟨[], [], []⟩) ∧
     (∀ x, ([] : List ESM.User).find? (fun y => y.username = "eve")
         = some x →
       x.passwordHash = (fun s : String => s ++ "x") "pw2" →
       (ESM.login (fun s => s ++ "x") ⟨[], [], []⟩ "eve" "pw2").1.status
         = 200 ∧
       (ESM.login (fun s => s ++ "x") ⟨[], [], []⟩ "eve" "pw2").1.body
         = JBody.obj [("ok", FVal.b true)]) ∧
     ((∀ x ∈ ([] : List P0.User), x.username ≠ "eve") →
       (P0.login (fun s => s ++ "x") ⟨[], [], []⟩ (some "eve")
         (some "pw2")).1.status = 401 ∧
       (P0.login (fun s => s ++ "x") ⟨[], [], []⟩ (some "eve")
         (some "pw2")).2 = ⟨[], [], []⟩)) :=
  ⟨⟨by decide, by decide, by decide, by decide⟩,
   claim_C7_login_amended (fun s => s ++ "x")
     ⟨[], [], [⟨"Bob", "pwx", "c1"⟩]⟩ "bob" "pw"
     ⟨[], [], []⟩ "eve" "pw2" ⟨[], [], []⟩ "eve" "pw2"
     (by decide) (by decide) (by decide) (by decide)⟩

end Webboard

namespace Webboard

/-- C8 counterexample: in the ESM variant GET /search is not an alias of
GET /questions: on a store with one question and one answer, the search
row has no answersCount field while the listing row carries
answersCount 1. -/
theorem claim_C8_counterexample :
    ((ESM.search ⟨[⟨"q1", "t1", some "b1", "u1", "c1"⟩],
        [⟨"a1", "q1", "ab", "u2", "c2"⟩], []⟩).1.rows.map
      (fun r => getField r "answersCount")) = [none] ∧
    ((ESM.getQuestions ⟨[⟨"q1", "t1", some "b1", "u1", "c1"⟩],
        [⟨"a1", "q1", "ab", "u2", "c2"⟩], []⟩).1.rows.map
      (fun r => getField r "answersCount")) = [some (FVal.n 1)] ∧
    ([none] : List (Option FVal)) ≠ [some (FVal.n 1)] := by
  refine ⟨rfl, rfl, by simp⟩

/-- C8 amended: in the CJS variant GET /search re-dispatches to the
GET /questions handler and returns exactly the same response on every
state (query parameters ignored); the ESM and part_000 variants instead
return the raw questions collection - no answersCount annotation, no
reordering - so on every state with at least one question their /search
response differs from their /questions response. -/
theorem claim_C8_search_alias_amended :
    (∀ st : CJS.Store, CJS.search st = CJS.getQuestions st) ∧
    (∀ st : ESM.Store, st.questions ≠ [] →
      (ESM.search st).1.rows ≠ (ESM.getQuestions st).1.rows) ∧
    (∀ st : P0.Store, st.questions ≠ [] →
      (P0.search st).1.body ≠ (P0.getQuestions st).1.body) := by
  refine ⟨fun st => rfl, ?_, ?_⟩
  · intro st hne heq
    obtain ⟨qs, as, us⟩ := st
    cases qs with
    | nil => exact hne rfl
    | cons q rest =>
      simp only [ESM.search, ESM.getQuestions, Resp.rows,
        List.map_cons] at heq
      injection heq with hhead _
      have hlen := congrArg List.length hhead
      rw [List.length_append] at hlen
      simp at hlen
  · intro st hne heq
    obtain ⟨qs, as, us⟩ := st
    cases qs with
    | nil => exact hne rfl
    | cons q rest =>
      simp only [P0.search, P0.getQuestions, JBody.obj.injEq,
        List.cons.injEq, Prod.mk.injEq, FVal.arr.injEq, true_and,
        and_true] at heq
      cases hs : sortJs P0.ltCreated (q :: rest) with
      | nil =>
        have hl := sortJs_length P0.ltCreated (q :: rest)
        rw [hs] at hl
        simp at hl
      | cons q2 rest2 =>
        rw [hs] at heq
        simp only [List.map_cons] at heq
        injection heq with hhead _
        have hlen := congrArg List.length hhead
        simp [P0.qRow, List.length_append] at hlen

/-- Witness for C8's difference clauses at concrete one-question
stores. -/
theorem claim_C8_search_alias_amended_witness :
    (([(⟨"q1", "t1", some "b1", "u1", "c1"⟩ : ESM.Question)]
        : List ESM.Question) ≠ [] ∧
     ([(⟨"q1", "t1", "b1", "u1", "T"⟩ : P0.Question)]
        : List P0.Question) ≠ []) ∧
    ((ESM.search ⟨[⟨"q1", "t1", some "b1", "u1", "c1"⟩], [], []⟩).1.rows
       ≠ (ESM.getQuestions
           ⟨[⟨"q1", "t1", some "b1", "u1", "c1"⟩], [], []⟩).1.rows ∧
     (P0.search ⟨[⟨"q1", "t1", "b1", "u1", "T"⟩], [], []⟩).1.body
       ≠ (P0.getQuestions
           ⟨[⟨"q1", "t1", "b1", "u1", "T"⟩], [], []⟩).1.body) :=
  ⟨⟨by simp, by simp⟩,
   claim_C8_search_alias_amended.2.1
     ⟨[⟨"q1", "t1", some "b1", "u1", "c1"⟩], [], []⟩ (by simp),
   claim_C8_search_alias_amended.2.2
     ⟨[⟨"q1", "t1", "b1", "u1", "T"⟩], [], []⟩ (by simp)⟩

/-- C9 counterexample: the ESM POST /questions rejects a request without
the X-User header with 401 and no write, where the claim requires
success with author anon. -/
theorem claim_C9_counterexample :
    (ESM.postQuestion ⟨[], [], []⟩ none (some "Hi") (some "b") 7
      "T1").1.status = 401 ∧
    (ESM.postQuestion ⟨[], [], []⟩ none (some "Hi") (some "b") 7 "T1").2
      = ⟨[], [], []⟩ ∧
    (401 ≠ 200) := by
  refine ⟨rfl, rfl, by decide⟩

/-- C9 amended: in the CJS and heredoc variants the X-User header is
optional: the CJS POST /questions and POST /questions/:qid/answers
succeed without it and the created record's author is anon, and the
heredoc answers route does likewise provided the target question exists
(it checks existence); the ESM and part_000 variants instead reject
any POST /questions or POST /questions/:qid/answers without X-User
with 401 and write nothing. -/
theorem claim_C9_anon_amended
    (st : CJS.Store) (title : String) (body : Option String) (t : Nat)
    (rand now : String)
    (st2 : CJS.Store) (qid b2 : String) (t2 : Nat) (rand2 now2 : String)
    (st3 : CJS.Store) (qid3 b3 : String) (t3 : Nat) (rand3 now3 : String)
    (hTitle : jsTrim title ≠ "") (hqid : qid ≠ "") (hb : b2 ≠ "")
    (hqid3 : qid3 ≠ "") (hb3 : b3 ≠ "")
    (hex3 : ∃ q ∈ st3.questions, q.questionId = qid3) :
    ((CJS.postQuestion st (some title) body none t rand now).1.status = 200 ∧
     (CJS.postQuestion st (some title) body none t rand now).2.questions.map
       (fun q => q.author) = st.questions.map (fun q => q.author) ++ ["anon"]) ∧
    ((CJS.postAnswer st2 qid (some b2) none t2 rand2 now2).1.status = 200 ∧
     (CJS.postAnswer st2 qid (some b2) none t2 rand2 now2).2.answers.map
       (fun a => a.author) = st2.answers.map (fun a => a.author) ++ ["anon"]) ∧
    ((HD.postAnswer st3 qid3 (some b3) none t3 rand3 now3).1.status = 200 ∧
     (HD.postAnswer st3 qid3 (some b3) none t3 rand3 now3).2.answers.map
       (fun a => a.author) = st3.answers.map (fun a => a.author) ++ ["anon"]) ∧
    (∀ (stE : ESM.Store) (titleE bodyE : Option String) (tE : Nat)
        (nowE : String),
      (ESM.postQuestion stE none titleE bodyE tE nowE).1.status = 401 ∧
      (ESM.postQuestion stE none titleE bodyE tE nowE).2 = stE) ∧
    (∀ (stE : ESM.Store) (qidE : String) (bodyE : Option String) (tE : Nat)
        (nowE : String),
      (ESM.postAnswer stE none qidE bodyE tE nowE).1.status = 401 ∧
      (ESM.postAnswer stE none qidE bodyE tE nowE).2 = stE) ∧
    (∀ (stP : P0.Store) (titleP bodyP : Option String) (tP : Nat)
        (rndP nowP : String),
      (P0.postQuestion stP none titleP bodyP tP rndP nowP).1.status = 401 ∧
      (P0.postQuestion stP none titleP bodyP tP rndP nowP).2 = stP) ∧
    (∀ (stP : P0.Store) (qidP : String) (bodyP : Option String) (tP : Nat)
        (rndP nowP : String),
      (P0.postAnswer stP none qidP bodyP tP rndP nowP).1.status = 401 ∧
      (P0.postAnswer stP none qidP bodyP tP rndP nowP).2 = stP) := by
  refine ⟨?_, ?_, ?_, fun stE titleE bodyE tE nowE => ⟨rfl, rfl⟩,
    fun stE qidE bodyE tE nowE => ⟨rfl, rfl⟩,
    fun stP titleP bodyP tP rndP nowP => ⟨rfl, rfl⟩,
    fun stP qidP bodyP tP rndP nowP => ⟨rfl, rfl⟩⟩
  · simp [CJS.postQuestion, hTitle, jsOrDefault]
  · simp [CJS.postAnswer, strTruthy, hqid, hb, jsOrDefault]
  · have hany : st3.questions.any (fun q => q.questionId = qid3) = true := by
      rw [List.any_eq_true]
      obtain ⟨q, hq, he⟩ := hex3
      exact ⟨q, hq, by simp [he]⟩
    simp [HD.postAnswer, strTruthy, hqid3, hb3, hany, jsOrDefault]

/-- Witness for C9 at concrete inputs: empty stores (the heredoc store
holds the target question), no X-User header. -/
theorem claim_C9_anon_amended_witness :
    (jsTrim "Hi" ≠ "" ∧ ("q1" : String) ≠ "" ∧ ("an answer" : String) ≠ "" ∧
     ("q9" : String) ≠ "" ∧ ("a reply" : String) ≠ "" ∧
     (∃ q ∈ [(⟨"q9", "t", "b", "alice", "c", [], []⟩ : CJS.Question)],
        q.questionId = "q9")) ∧
    (((CJS.postQuestion ⟨[], [], []⟩ (some "Hi") (some "B") none 3 "r"
        "T1").1.status = 200 ∧
      (CJS.postQuestion ⟨[], [], []⟩ (some "Hi") (some "B") none 3 "r"
        "T1").2.questions.map (fun q => q.author) = [] ++ ["anon"]) ∧
     ((CJS.postAnswer ⟨[], [], []⟩ "q1" (some "an answer") none 4 "r"
        "T2").1.status = 200 ∧
      (CJS.postAnswer ⟨[], [], []⟩ "q1" (some "an answer") none 4 "r"
        "T2").2.answers.map (fun a => a.author) = [] ++ ["anon"]) ∧
     ((HD.postAnswer ⟨[⟨"q9", "t", "b", "alice", "c", [], []⟩], [], []⟩
        "q9" (some "a reply") none 5 "r" "T3").1.status = 200 ∧
      (HD.postAnswer ⟨[⟨"q9", "t", "b", "alice", "c", [], []⟩], [], []⟩
        "q9" (some "a reply") none 5 "r" "T3").2.answers.map
        (fun a => a.author) = [] ++ ["anon"]) ∧
     (∀ (stE : ESM.Store) (titleE bodyE : Option String) (tE : Nat)
         (nowE : String),
       (ESM.postQuestion stE none titleE bodyE tE nowE).1.status = 401 ∧
       (ESM.postQuestion stE none titleE bodyE tE nowE).2 = stE) ∧
     (∀ (stE : ESM.Store) (qidE : String) (bodyE : Option String) (tE : Nat)
         (nowE : String),
       (ESM.postAnswer stE none qidE bodyE tE nowE).1.status = 401 ∧
       (ESM.postAnswer stE none qidE bodyE tE nowE).2 = stE) ∧
     (∀ (stP : P0.Store) (titleP bodyP : Option String) (tP : Nat)
         (rndP nowP : String),
       (P0.postQuestion stP none titleP bodyP tP rndP nowP).1.status = 401 ∧
       (P0.postQuestion stP none titleP bodyP tP rndP nowP).2 = stP) ∧
     (∀ (stP : P0.Store) (qidP : String) (bodyP : Option String) (tP : Nat)
         (rndP nowP : String),
       (P0.postAnswer stP none qidP bodyP tP rndP nowP).1.status = 401 ∧
       (P0.postAnswer stP none qidP bodyP tP rndP nowP).2 = stP)) :=
  ⟨⟨by decide, by decide, by decide, by decide, by decide,
    ⟨⟨"q9", "t", "b", "alice", "c", [], []⟩, by simp, rfl⟩⟩,
   claim_C9_anon_amended ⟨[], [], []⟩ "Hi" (some "B") 3 "r" "T1"
     ⟨[], [], []⟩ "q1" "an answer" 4 "r" "T2"
     ⟨[⟨"q9", "t", "b", "alice", "c", [], []⟩], [], []⟩ "q9" "a reply" 5 "r"
     "T3" (by decide) (by decide) (by decide) (by decide) (by decide)
     ⟨⟨"q9", "t", "b", "alice", "c", [], []⟩, by simp, rfl⟩⟩

/-- C10: frame property of every embedded endpoint of every variant.
The read endpoints (GET /questions of CJS, ESM, part_000 and heredoc,
GET /search of CJS, ESM and part_000, login of CJS, ESM and part_000)
leave the whole store unchanged; each mutating endpoint touches only
its own document: POST /questions (CJS, ESM, part_000) only
questions.json, POST /questions/:qid/answers (CJS, ESM, part_000,
heredoc) only answers.json, signup (CJS, ESM, part_000) only
users.json - on every path, success or error. -/
theorem claim_C10_frame :
    (∀ st : CJS.Store, (CJS.getQuestions st).2 = st) ∧
    (∀ st : CJS.Store, (CJS.search st).2 = st) ∧
    (∀ (hf : String → String) (st : CJS.Store) (u p : Option String),
      (CJS.login hf st u p).2 = st) ∧
    (∀ (hf : String → String) (st : CJS.Store) (u p : Option String)
        (now : String),
      (CJS.signup hf st u p now).2.questions = st.questions ∧
      (CJS.signup hf st u p now).2.answers = st.answers) ∧
    (∀ (st : CJS.Store) (title body xu : Option String) (t : Nat)
        (rand now : String),
      (CJS.postQuestion st title body xu t rand now).2.answers = st.answers ∧
      (CJS.postQuestion st title body xu t rand now).2.users = st.users) ∧
    (∀ (st : CJS.Store) (qid : String) (body xu : Option String) (t : Nat)
        (rand now : String),
      (CJS.postAnswer st qid body xu t rand now).2.questions = st.questions ∧
      (CJS.postAnswer st qid body xu t rand now).2.users = st.users) ∧
    (∀ st : ESM.Store, (ESM.getQuestions st).2 = st) ∧
    (∀ st : ESM.Store, (ESM.search st).2 = st) ∧
    (∀ (hf : String → String) (st : ESM.Store) (u p : String),
      (ESM.login hf st u p).2 = st) ∧
    (∀ (hf : String → String) (st : ESM.Store) (u p : Option String)
        (now : String),
      (ESM.signup hf st u p now).2.questions = st.questions ∧
      (ESM.signup hf st u p now).2.answers = st.answers) ∧
    (∀ (st : ESM.Store) (xu title body : Option String) (t : Nat)
        (now : String),
      (ESM.postQuestion st xu title body t now).2.answers = st.answers ∧
      (ESM.postQuestion st xu title body t now).2.users = st.users) ∧
    (∀ (st : ESM.Store) (xu : Option String) (qid : String)
        (body : Option String) (t : Nat) (now : String),
      (ESM.postAnswer st xu qid body t now).2.questions = st.questions ∧
      (ESM.postAnswer st xu qid body t now).2.users = st.users) ∧
    (∀ st : P0.Store, (P0.getQuestions st).2 = st) ∧
    (∀ st : P0.Store, (P0.search st).2 = st) ∧
    (∀ (hf : String → String) (st : P0.Store) (u p : Option String),
      (P0.login hf st u p).2 = st) ∧
    (∀ (hf : String → String) (st : P0.Store) (u p : Option String)
        (now : String),
      (P0.signup hf st u p now).2.questions = st.questions ∧
      (P0.signup hf st u p now).2.answers = st.answers) ∧
    (∀ (st : P0.Store) (xu title body : Option String) (t : Nat)
        (rnd now : String),
      (P0.postQuestion st xu title body t rnd now).2.answers = st.answers ∧
      (P0.postQuestion st xu title body t rnd now).2.users = st.users) ∧
    (∀ (st : P0.Store) (xu : Option String) (qid : String)
        (body : Option String) (t : Nat) (rnd now : String),
      (P0.postAnswer st xu qid body t rnd now).2.questions = st.questions ∧
      (P0.postAnswer st xu qid body t rnd now).2.users = st.users) ∧
    (∀ st : CJS.Store, (HD.getQuestions st).2 = st) ∧
    (∀ (st : CJS.Store) (qid : String) (body xu : Option String) (t : Nat)
        (rand now : String),
      (HD.postAnswer st qid body xu t rand now).2.questions = st.questions ∧
      (HD.postAnswer st qid body xu t rand now).2.users = st.users) := by
  refine ⟨fun st => rfl, fun st => rfl, ?_, ?_, ?_, ?_, fun st => rfl,
    fun st => rfl, ?_, ?_, ?_, ?_, fun st => rfl, fun st => rfl, ?_, ?_,
    ?_, ?_, fun st => rfl, ?_⟩
  · intro hf st u p
    unfold CJS.login
    split
    · rfl
    · dsimp only
      split
      · rfl
      · split <;> rfl
  · intro hf st u p now
    unfold CJS.signup
    dsimp only
    split
    · exact ⟨rfl, rfl⟩
    · split
      · exact ⟨rfl, rfl⟩
      · split
        · exact ⟨rfl, rfl⟩
        · split <;> exact ⟨rfl, rfl⟩
  · intro st title body xu t rand now
    unfold CJS.postQuestion
    dsimp only
    split
    · exact ⟨rfl, rfl⟩
    · split <;> exact ⟨rfl, rfl⟩
  · intro st qid body xu t rand now
    unfold CJS.postAnswer
    dsimp only
    split <;> exact ⟨rfl, rfl⟩
  · intro hf st u p
    unfold ESM.login
    split
    · rfl
    · split <;> rfl
  · intro hf st u p now
    unfold ESM.signup
    split
    · exact ⟨rfl, rfl⟩
    · split <;> exact ⟨rfl, rfl⟩
  · intro st xu title body t now
    unfold ESM.postQuestion
    split
    · exact ⟨rfl, rfl⟩
    · split <;> exact ⟨rfl, rfl⟩
  · intro st xu qid body t now
    unfold ESM.postAnswer
    split
    · exact ⟨rfl, rfl⟩
    · split
      · exact ⟨rfl, rfl⟩
      · exact ⟨rfl, rfl⟩
  · intro hf st u p
    unfold P0.login
    split
    · rfl
    · split
      · rfl
      · split <;> rfl
  · intro hf st u p now
    unfold P0.signup
    split
    · exact ⟨rfl, rfl⟩
    · dsimp only
      split <;> exact ⟨rfl, rfl⟩
  · intro st xu title body t rnd now
    unfold P0.postQuestion
    split
    · exact ⟨rfl, rfl⟩
    · split <;> exact ⟨rfl, rfl⟩
  · intro st xu qid body t rnd now
    unfold P0.postAnswer
    split
    · exact ⟨rfl, rfl⟩
    · split
      · exact ⟨rfl, rfl⟩
      · split <;> exact ⟨rfl, rfl⟩
  · intro st qid body xu t rand now
    unfold HD.postAnswer
    dsimp only
    split
    · exact ⟨rfl, rfl⟩
    · split <;> exact ⟨rfl, rfl⟩

end Webboard
